import Mathlib

/-!
Shallow embedding of the order-fulfillment saga
(`src/app/workflows.py`, `src/app/activities.py`, `src/app/utils.py`).

Database tables (`payments`, `orders` keyed by their unique identifier,
append-only `events`) are modelled as finite maps / lists; every database
call made by an activity can fault, so each call site carries an
`Option String` fault oracle (`none` = the call succeeds, `some msg` = the
underlying driver raises `msg`).  The external payment gateway is an
oracle `Except String Rat` (raise, or return the charged amount).
-/

namespace Saga

/-- Python truthiness for an optional string: `None` and `""` are falsy. -/
def pyFalsyStr (s : Option String) : Bool :=
  match s with
  | none => true
  | some t => t = ""

/-- Python `x or default` for an optional string (`None`/`""` fall back). -/
def pyOrStr (s : Option String) (d : String) : String :=
  match s with
  | none => d
  | some t => if t = "" then d else t

/-- Python `repr` of an optional string, as interpolated by `!r`. -/
def reprOpt (s : Option String) : String :=
  match s with
  | none => "None"
  | some t => "\x27" ++ t ++ "\x27"

/-- An order payload dict: `{"order_id": ..., "items": [...]}`. -/
structure Order where
  order_id : Option String
  items : List String
deriving DecidableEq, Repr

/-- The empty order dict `{}` (all keys absent). -/
def Order.empty : Order := ⟨none, []⟩

/-- A row of the `payments` table, minus the key (`order_id, status, amount`). -/
structure PaymentRec where
  order_id : String
  status : String
  amount : Rat
deriving DecidableEq, Repr

/-- One row of the append-only `events` table: `(order_id, type)`. -/
structure EventRec where
  order_id : String
  type : String
deriving DecidableEq, Repr

/-- The relational store: `payments` and `orders` are tables with a unique
key (modelled as finite maps), `events` is append-only. -/
structure DBState where
  payments : String → Option PaymentRec
  orders : String → Option String
  events : List EventRec

/-- The empty database. -/
def DBState.empty : DBState := ⟨fun _ => none, fun _ => none, []⟩

/-- `utils.insert_event`: append one row to `events`. -/
def insert_event (oid ty : String) (db : DBState) : DBState :=
  { db with events := db.events ++ [⟨oid, ty⟩] }

/-- `utils.upsert_order`: insert the order row or update its state. -/
def upsert_order (oid st : String) (db : DBState) : DBState :=
  { db with orders := fun q => if q = oid then some st else db.orders q }

/-- `utils.update_order_status`: delegates to `upsert_order`. -/
def update_order_status (oid st : String) (db : DBState) : DBState :=
  upsert_order oid st db

/-- `utils.insert_payment_init`: `INSERT ... ON CONFLICT (payment_id) DO
NOTHING` with status `'INIT'` and amount 0. -/
def insert_payment_init (pid oid : String) (db : DBState) : DBState :=
  match db.payments pid with
  | some _ => db
  | none =>
      { db with payments := fun q => if q = pid then some ⟨oid, "INIT", 0⟩ else db.payments q }

/-- `utils.ensure_payment_idempotent`: fetch the payment row, `None` if absent. -/
def ensure_payment_idempotent (db : DBState) (pid : String) : Option PaymentRec :=
  db.payments pid

/-- `utils.update_payment_charged`: set status `'CHARGED'` and the amount on
the row with this key (SQL `UPDATE`, a no-op if the row is absent). -/
def update_payment_charged (pid : String) (amount : Rat) (db : DBState) : DBState :=
  { db with payments := fun q =>
      if q = pid then (db.payments pid).map (fun r => { r with status := "CHARGED", amount := amount })
      else db.payments q }

/-- `utils.update_payment_failed`: set status `'FAILED'` on the row with this key. -/
def update_payment_failed (pid : String) (db : DBState) : DBState :=
  { db with payments := fun q =>
      if q = pid then (db.payments pid).map (fun r => { r with status := "FAILED" })
      else db.payments q }

/-- The structured result dict returned by `charge_payment_activity`:
`{"status": "charged"|"already_charged"|"failed", ...}`. -/
inductive ChargeResult where
  | charged (amount : Rat)
  | alreadyCharged (amount : Rat)
  | failed (payment_id : Option String) (error : String)
deriving DecidableEq, Repr

/-- The `"status"` field of a charge result. -/
def ChargeResult.status : ChargeResult → String
  | .charged _ => "charged"
  | .alreadyCharged _ => "already_charged"
  | .failed _ _ => "failed"

/-- The activity argument `{"order": ..., "payment_id": ...}`. -/
structure ChargePayload where
  order : Option Order
  payment_id : Option String
deriving DecidableEq, Repr

/-- Fault oracle for the database calls inside one `charge_payment_activity`
invocation, one slot per call site (`none` = succeeds, `some e` = raises `e`). -/
structure ChargeDBFaults where
  eventMissing : Option String
  init : Option String
  readRow : Option String
  eventAlreadyCharged : Option String
  chargedWrite : Option String
  eventCharged : Option String
  orderPaid : Option String
  failWrite : Option String
  eventFailed : Option String
  orderFailed : Option String
deriving DecidableEq, Repr

/-- All database calls succeed. -/
def ChargeDBFaults.ok : ChargeDBFaults :=
  ⟨none, none, none, none, none, none, none, none, none, none⟩

/-- The error message built for missing identifiers. -/
def missingIdsMsg (order_id payment_id : Option String) : String :=
  "missing identifiers (order_id=" ++ reprOpt order_id ++ ", payment_id=" ++ reprOpt payment_id ++ ")"

/-- The `except` handler of the gateway `try` block in
`charge_payment_activity`: best-effort `update_payment_failed`, then a
best-effort audit event plus order-status write (the second write is skipped
when the event insert raises), returning the structured failure dict. -/
def charge_failure_handler (oid pid err : String) (beh : ChargeDBFaults) (db : DBState) :
    Except String ChargeResult × DBState :=
  let db1 := match beh.failWrite with
    | some _ => db
    | none => update_payment_failed pid db
  let db2 := match beh.eventFailed with
    | some _ => db1
    | none =>
        let dbE := insert_event oid "PAYMENT_FAILED" db1
        match beh.orderFailed with
        | some _ => dbE
        | none => update_order_status oid "PAYMENT_FAILED" dbE
  (.ok (.failed (some pid) err), db2)

/-- The `try` block of `charge_payment_activity` that reaches the external
gateway: on gateway success mark the row `CHARGED`, append the audit event and
mark the order `PAID`; any fault in the block lands in
`charge_failure_handler`.  The third component counts gateway invocations. -/
def charge_gateway_path (oid pid : String) (beh : ChargeDBFaults) (gw : Except String Rat)
    (db : DBState) : Except String ChargeResult × DBState × Nat :=
  match gw with
  | .error e =>
      let (r, db') := charge_failure_handler oid pid e beh db
      (r, db', 1)
  | .ok amount =>
      match beh.chargedWrite with
      | some e =>
          let (r, db') := charge_failure_handler oid pid e beh db
          (r, db', 1)
      | none =>
          let db1 := update_payment_charged pid amount db
          match beh.eventCharged with
          | some e =>
              let (r, db') := charge_failure_handler oid pid e beh db1
              (r, db', 1)
          | none =>
              let db2 := insert_event oid "PAYMENT_CHARGED" db1
              match beh.orderPaid with
              | some e =>
                  let (r, db') := charge_failure_handler oid pid e beh db2
                  (r, db', 1)
              | none =>
                  (.ok (.charged amount), update_order_status oid "PAID" db2, 1)

/-- `charge_payment_activity` (src/app/activities.py, lines 50-104): reject
missing identifiers with a structured failure; reserve the ledger row
idempotently; short-circuit on an existing `CHARGED` row; otherwise run the
gateway path.  Unhandled faults propagate as `.error`; the third component
counts gateway invocations. -/
def charge_payment_activity (payload : Option ChargePayload) (beh : ChargeDBFaults)
    (gw : Except String Rat) (db : DBState) : Except String ChargeResult × DBState × Nat :=
  let p := payload.getD ⟨none, none⟩
  let order := p.order.getD Order.empty
  let payment_id := p.payment_id
  let order_id := order.order_id
  if pyFalsyStr payment_id || pyFalsyStr order_id then
    match beh.eventMissing with
    | some e => (.error e, db, 0)
    | none =>
        (.ok (.failed payment_id (missingIdsMsg order_id payment_id)),
         insert_event (pyOrStr order_id "unknown") "PAYMENT_FAILED" db, 0)
  else
    let pid := payment_id.getD ""
    let oid := order_id.getD ""
    match beh.init with
    | some e => (.error e, db, 0)
    | none =>
        let db1 := insert_payment_init pid oid db
        match beh.readRow with
        | some e => (.error e, db1, 0)
        | none =>
            match ensure_payment_idempotent db1 pid with
            | some row =>
                if row.status = "CHARGED" then
                  let db2 := match beh.eventAlreadyCharged with
                    | some _ => db1
                    | none => insert_event oid "PAYMENT_ALREADY_CHARGED" db1
                  (.ok (.alreadyCharged row.amount), db2, 0)
                else
                  charge_gateway_path oid pid beh gw db1
            | none =>
                charge_gateway_path oid pid beh gw db1

/-! ## OrderWorkflow (src/app/workflows.py) -/

/-- Whether the first character sequence is a leading segment of the second. -/
def leadsSeq : List Char → List Char → Bool
  | [], _ => true
  | _ :: _, [] => false
  | a :: as, b :: bs => a == b && leadsSeq as bs

/-- Whether the first character sequence occurs contiguously in the second
(Python `needle in haystack`). -/
def containsSeq (needle : List Char) : List Char → Bool
  | [] => leadsSeq needle []
  | b :: bs => leadsSeq needle (b :: bs) || containsSeq needle bs

/-- `_is_timeout_exception`: the lower-cased message contains
`"timed out"` or `"timeout"`. -/
def is_timeout_exception (msg : String) : Bool :=
  let low := msg.data.map Char.toLower
  containsSeq "timed out".data low || containsSeq "timeout".data low

/-- The error recorded when the receive activity invocation faults. -/
def receiveErrMsg (e : String) : String :=
  if is_timeout_exception e then "Activity task timed out during RECEIVE" else "Receive error: " ++ e

/-- The error recorded when the validate activity invocation faults. -/
def validateErrMsg (e : String) : String :=
  if is_timeout_exception e then "Activity task timed out during VALIDATION" else "Validation error: " ++ e

/-- The error recorded when the charge activity invocation faults. -/
def chargeErrMsg (e : String) : String :=
  if is_timeout_exception e then "Activity task timed out during CHARGE" else "Charge error: " ++ e

/-- The error recorded when starting the shipping child workflow faults. -/
def spawnErrMsg (e : String) : String :=
  "Failed to start shipping child workflow: " ++ e

/-- The default order payload substituted after a failed receive:
`{"order_id": order_id, "items": []}`. -/
def defaultOrder (oid : String) : Order := ⟨some oid, []⟩

/-- `MANUAL_REVIEW_WINDOW = timedelta(seconds=10)`, in milliseconds. -/
def MANUAL_REVIEW_WINDOW_MS : Nat := 10000

/-- Earliest of two optional instants (`none` = never). -/
def minOptTime (a b : Option Nat) : Option Nat :=
  match a, b with
  | none, t => t
  | some x, none => some x
  | some x, some y => some (min x y)

/-- Modelled from the spec: the substrate primitive awaited by
`OrderWorkflow._wait_for_approval_or_cancel` is a durable conditional wait
(`workflow.wait_condition` with a timeout); per the spec the saga "suspends
until `approved OR cancelled` becomes true or a fixed window elapses" and,
with neither flag set, "resolves deterministically at window expiry — never
earlier".  Given the instants at which the approve and cancel flags are set
(`none` = never), this returns the instant at which the wait resolves. -/
def wait_for_approval_or_cancel (approveAt cancelAt : Option Nat) (start window : Nat) : Nat :=
  match minOptTime approveAt cancelAt with
  | some t => if t ≤ start + window then max start t else start + window
  | none => start + window

/-- The in-memory saga state exposed by the `status()` query:
`order_id`, `current_step`, `_last_error`. -/
structure SagaState where
  order_id : Option String
  current_step : String
  last_error : Option String
deriving DecidableEq, Repr

/-- The dict returned by the `status()` query:
`{"order_id", "step", "last_error"}`. -/
structure StatusSnapshot where
  order_id : Option String
  step : String
  last_error : Option String
deriving DecidableEq, Repr

namespace OrderWorkflow

/-- The `status()` query: a read-only snapshot of the saga state. -/
def status (s : SagaState) : StatusSnapshot :=
  ⟨s.order_id, s.current_step, s.last_error⟩

/-- The `DispatchFailed(reason)` signal handler body: overwrite `_last_error`. -/
def DispatchFailed (s : SagaState) (reason : String) : SagaState :=
  { s with last_error := some ("DispatchFailed: " ++ reason) }

/-- The dict returned by `OrderWorkflow.run`. -/
structure RunResult where
  status : String
  order_id : String
  error : Option String
  payment : Option ChargeResult
deriving DecidableEq, Repr

/-- Outcomes of the awaited operations inside one `OrderWorkflow.run`
execution: the three activity invocations and the child-workflow start each
either return a value or fault after retry exhaustion (`Except`), and
`approved` / `cancelled` are the two signal flags as the approval wait
resolves. -/
structure RunEnv where
  recv : Except String Order
  validate : Except String Bool
  approved : Bool
  cancelled : Bool
  charge : Except String ChargeResult
  spawn : Except String Unit
deriving Repr

/-- The `valid` boolean the run computes at the validate step: the activity
result coerced with `bool(...)`, or `False` when the invocation faulted. -/
def validOf (env : RunEnv) : Bool :=
  match env.validate with
  | .ok v => v
  | .error _ => false

/-- Trace of one `OrderWorkflow.run` execution: the final saga state and
return value, the `current_step` values at which the run suspended (awaited),
the order payload and validity actually used, the recorded error after the
receive and validate steps, and whether the charge activity / child-workflow
start were reached. -/
structure RunTrace where
  finalState : SagaState
  result : RunResult
  suspensionSteps : List String
  orderUsed : Order
  validUsed : Bool
  errAfterReceive : Option String
  errAfterValidate : Option String
  chargeInvoked : Bool
  spawnAttempted : Bool
deriving DecidableEq, Repr

/-- `OrderWorkflow.run` (src/app/workflows.py, lines 52-154): receive
(substituting the default payload on fault), validate (treating fault as
invalid), approval gate with cancellation checked first, charge
(terminating `CHARGE_FAILED` on invocation fault), detached shipping spawn
(terminating `SHIPPING_START_FAILED` on fault), then `COMPLETED` with
`_last_error` cleared. -/
def run (order_id payment_id : String) (env : RunEnv) : RunTrace :=
  let recvPair : Order × Option String :=
    match env.recv with
    | .ok o => (o, none)
    | .error e => (defaultOrder order_id, some (receiveErrMsg e))
  let order := recvPair.1
  let le1 := recvPair.2
  let validPair : Bool × Option String :=
    match env.validate with
    | .ok v => (v, le1)
    | .error e => (false, some (validateErrMsg e))
  let valid := validPair.1
  let le2 := validPair.2
  let baseSteps := ["RECEIVING_ORDER", "VALIDATING_ORDER", "WAITING_FOR_APPROVAL"]
  if env.cancelled then
    { finalState := ⟨some order_id, "CANCELLED", le2⟩,
      result := ⟨"cancelled", order_id, none, none⟩,
      suspensionSteps := baseSteps, orderUsed := order, validUsed := valid,
      errAfterReceive := le1, errAfterValidate := le2,
      chargeInvoked := false, spawnAttempted := false }
  else if !env.approved then
    let le3 := pyOrStr le2 "Manual review timed out"
    { finalState := ⟨some order_id, "AWAITING_APPROVAL_TIMEOUT", some le3⟩,
      result := ⟨"manual_review_timeout", order_id, some le3, none⟩,
      suspensionSteps := baseSteps, orderUsed := order, validUsed := valid,
      errAfterReceive := le1, errAfterValidate := le2,
      chargeInvoked := false, spawnAttempted := false }
  else if !valid then
    let le3 := pyOrStr le2 "Order validation failed"
    { finalState := ⟨some order_id, "VALIDATION_FAILED", some le3⟩,
      result := ⟨"validation_failed", order_id, some le3, none⟩,
      suspensionSteps := baseSteps, orderUsed := order, validUsed := valid,
      errAfterReceive := le1, errAfterValidate := le2,
      chargeInvoked := false, spawnAttempted := false }
  else
    match env.charge with
    | .error e =>
        let le3 := chargeErrMsg e
        { finalState := ⟨some order_id, "CHARGE_FAILED", some le3⟩,
          result := ⟨"payment_failed", order_id, some le3, none⟩,
          suspensionSteps := baseSteps ++ ["CHARGING_PAYMENT"],
          orderUsed := order, validUsed := valid,
          errAfterReceive := le1, errAfterValidate := le2,
          chargeInvoked := true, spawnAttempted := false }
    | .ok pr =>
        match env.spawn with
        | .error e =>
            let le3 := spawnErrMsg e
            { finalState := ⟨some order_id, "SHIPPING_START_FAILED", some le3⟩,
              result := ⟨"shipping_start_failed", order_id, some le3, none⟩,
              suspensionSteps := baseSteps ++ ["CHARGING_PAYMENT", "STARTING_SHIPPING"],
              orderUsed := order, validUsed := valid,
              errAfterReceive := le1, errAfterValidate := le2,
              chargeInvoked := true, spawnAttempted := true }
        | .ok _ =>
            { finalState := ⟨some order_id, "COMPLETED", none⟩,
              result := ⟨"success", order_id, none, some pr⟩,
              suspensionSteps := baseSteps ++ ["CHARGING_PAYMENT", "STARTING_SHIPPING"],
              orderUsed := order, validUsed := valid,
              errAfterReceive := le1, errAfterValidate := le2,
              chargeInvoked := true, spawnAttempted := true }

end OrderWorkflow

/-- The terminal steps of the saga state machine. -/
def terminalSteps : List String :=
  ["CANCELLED", "AWAITING_APPROVAL_TIMEOUT", "VALIDATION_FAILED", "CHARGE_FAILED",
   "SHIPPING_START_FAILED", "COMPLETED", "FAILED"]

/-- A workflow instance as addressable from outside: its queryable saga state
together with whether its `run` method has returned. -/
structure WorkflowInstance where
  state : SagaState
  completed : Bool
deriving DecidableEq, Repr

/-- Modelled from the spec: the durable-execution substrate (spec section 6,
section 4.4) applies a signal handler only while the workflow instance is
still running; a `DispatchFailed` signal addressed to an instance whose run
has completed is dropped ("abandon" semantics — the signal has no observable
effect).  While the instance runs, the handler from the source applies. -/
def deliverDispatchFailed (inst : WorkflowInstance) (reason : String) : WorkflowInstance :=
  if inst.completed then inst
  else { inst with state := OrderWorkflow.DispatchFailed inst.state reason }

/-- The instances of one `OrderWorkflow` run observable from outside: while
`run` is suspended at an await, any state whose `current_step` is one of the
run's suspension steps (signals may have rewritten the flags and
`_last_error`, but only `run` itself writes `current_step`); once `run` has
returned, exactly its final state, marked completed. -/
def observable (order_id payment_id : String) (env : OrderWorkflow.RunEnv)
    (inst : WorkflowInstance) : Prop :=
  (inst.completed = false ∧
    inst.state.current_step ∈ (OrderWorkflow.run order_id payment_id env).suspensionSteps) ∨
  (inst.completed = true ∧
    inst.state = (OrderWorkflow.run order_id payment_id env).finalState)

/-! ## Concrete inputs used by witnesses and counterexamples -/

/-- The activity payload `{"order": {"order_id": oid, "items": []}, "payment_id": pid}`. -/
def payloadFor (oid pid : String) : Option ChargePayload :=
  some ⟨some ⟨some oid, []⟩, some pid⟩

/-- Happy path: receive and validate succeed, approval granted, charge and
shipping spawn succeed. -/
def envHappy : OrderWorkflow.RunEnv :=
  ⟨.ok ⟨some "o1", ["sku-1"]⟩, .ok true, true, false, .ok (.charged 42), .ok ()⟩

/-- The charge activity completes but reports the structured business failure
`{"status": "failed", ...}` (a gateway decline); everything else succeeds. -/
def envDeclined : OrderWorkflow.RunEnv :=
  ⟨.ok ⟨some "o1", ["sku-1"]⟩, .ok true, true, false,
   .ok (.failed (some "p1") "gateway declined"), .ok ()⟩

/-- Both the approval and the cancellation flag are set when the wait resolves. -/
def envBothFlags : OrderWorkflow.RunEnv :=
  ⟨.ok ⟨some "o1", ["sku-1"]⟩, .ok true, true, true, .ok (.charged 1), .ok ()⟩

/-- No signal is delivered before the approval window elapses. -/
def envNoSignals : OrderWorkflow.RunEnv :=
  ⟨.ok ⟨some "o1", ["sku-1"]⟩, .ok true, false, false, .ok (.charged 1), .ok ()⟩

/-- Validation returns `False` but approval is granted. -/
def envInvalidApproved : OrderWorkflow.RunEnv :=
  ⟨.ok ⟨some "o1", ["sku-1"]⟩, .ok false, true, false, .ok (.charged 1), .ok ()⟩

/-- Both the receive and the validate invocations fault after retry exhaustion. -/
def envFaultyEarly : OrderWorkflow.RunEnv :=
  ⟨.error "boom", .error "db timed out", true, false, .ok (.charged 1), .ok ()⟩

/-- The receive invocation faults, everything afterwards succeeds. -/
def envRecvFaultCompleted : OrderWorkflow.RunEnv :=
  ⟨.error "boom", .ok true, true, false, .ok (.charged 2), .ok ()⟩

/-- A completed instance of the happy-path run. -/
def instHappyDone : WorkflowInstance :=
  ⟨(OrderWorkflow.run "o1" "p1" envHappy).finalState, true⟩

/-- The five `current_step` values at which `run` can be suspended. -/
def allSuspensionSteps : List String :=
  ["RECEIVING_ORDER", "VALIDATING_ORDER", "WAITING_FOR_APPROVAL",
   "CHARGING_PAYMENT", "STARTING_SHIPPING"]

/-! ## Theorems -/

/-- Every step at which `OrderWorkflow.run` suspends is one of the five
working (non-terminal) step labels. -/
theorem run_suspension_steps_subset (oid pid : String) (env : OrderWorkflow.RunEnv) :
    ∀ s ∈ (OrderWorkflow.run oid pid env).suspensionSteps, s ∈ allSuspensionSteps := by
  obtain ⟨recv, validate, approved, cancelled, charge, spawn⟩ := env
  rcases recv with e₁ | o₁ <;>
    rcases validate with e₂ | b <;> (try cases b) <;>
      cases cancelled <;> cases approved <;>
        rcases charge with e₃ | pr <;> rcases spawn with e₄ | u <;>
          simp [OrderWorkflow.run, allSuspensionSteps]

/-- A terminal step label is never a suspension-step label. -/
theorem terminal_not_suspension (s : String)
    (h1 : s ∈ terminalSteps) (h2 : s ∈ allSuspensionSteps) : False := by
  simp only [terminalSteps, List.mem_cons, List.not_mem_nil, or_false] at h1
  rcases h1 with h | h | h | h | h | h | h <;> subst h <;> revert h2 <;> decide

/-- C3: an `OrderWorkflow` instance whose queryable `current_step` is one of
the terminal steps has necessarily finished its run (terminal steps never
occur at a suspension point), so a `DispatchFailed(reason)` signal applied to
it is dropped by the substrate and the `status()` snapshot — in particular
`last_error` — is unchanged. -/
theorem dispatch_failed_after_terminal_is_noop (oid pid : String)
    (env : OrderWorkflow.RunEnv) (inst : WorkflowInstance) (reason : String)
    (hobs : observable oid pid env inst)
    (hterm : inst.state.current_step ∈ terminalSteps) :
    OrderWorkflow.status (deliverDispatchFailed inst reason).state =
      OrderWorkflow.status inst.state := by
  rcases hobs with ⟨_, hmem⟩ | ⟨hdone, _⟩
  · exact (terminal_not_suspension _ hterm
      (run_suspension_steps_subset oid pid env _ hmem)).elim
  · simp [deliverDispatchFailed, hdone]

/-- Witness for C3 at the completed happy-path instance. -/
theorem dispatch_failed_after_terminal_is_noop_witness :
    OrderWorkflow.status (deliverDispatchFailed instHappyDone "carrier down").state =
      OrderWorkflow.status instHappyDone.state :=
  dispatch_failed_after_terminal_is_noop "o1" "p1" envHappy instHappyDone "carrier down"
    (Or.inr ⟨rfl, rfl⟩) (by decide)

/-- C4: when both the cancellation and the approval flag are set as the
approval wait resolves, the run terminates `CANCELLED` with result status
`"cancelled"`, never invokes the charge activity, never suspends at
`CHARGING_PAYMENT`, and does not reach `COMPLETED`. -/
theorem cancel_precedes_approve (oid pid : String) (env : OrderWorkflow.RunEnv)
    (hc : env.cancelled = true) (ha : env.approved = true) :
    (OrderWorkflow.run oid pid env).finalState.current_step = "CANCELLED" ∧
    (OrderWorkflow.run oid pid env).result.status = "cancelled" ∧
    (OrderWorkflow.run oid pid env).chargeInvoked = false ∧
    "CHARGING_PAYMENT" ∉ (OrderWorkflow.run oid pid env).suspensionSteps ∧
    (OrderWorkflow.run oid pid env).finalState.current_step ≠ "COMPLETED" := by
  rcases hr : env.recv with e | o <;> rcases hv : env.validate with e' | b <;>
    simp [OrderWorkflow.run, hr, hv, hc, ha]

/-- Witness for C4 at a concrete run with both flags set. -/
theorem cancel_precedes_approve_witness :
    (OrderWorkflow.run "o1" "p1" envBothFlags).finalState.current_step = "CANCELLED" ∧
    (OrderWorkflow.run "o1" "p1" envBothFlags).result.status = "cancelled" ∧
    (OrderWorkflow.run "o1" "p1" envBothFlags).chargeInvoked = false ∧
    "CHARGING_PAYMENT" ∉ (OrderWorkflow.run "o1" "p1" envBothFlags).suspensionSteps ∧
    (OrderWorkflow.run "o1" "p1" envBothFlags).finalState.current_step ≠ "COMPLETED" :=
  cancel_precedes_approve "o1" "p1" envBothFlags rfl rfl

/-- C5: with neither flag set, the conditional wait resolves exactly at
`start + MANUAL_REVIEW_WINDOW` — never before the boundary — and the run
terminates `AWAITING_APPROVAL_TIMEOUT` with result status
`"manual_review_timeout"`. -/
theorem approval_timeout_exactly_at_window (start : Nat) (oid pid : String)
    (env : OrderWorkflow.RunEnv) (ha : env.approved = false) (hc : env.cancelled = false) :
    wait_for_approval_or_cancel none none start MANUAL_REVIEW_WINDOW_MS
        = start + MANUAL_REVIEW_WINDOW_MS ∧
    ¬ wait_for_approval_or_cancel none none start MANUAL_REVIEW_WINDOW_MS
        < start + MANUAL_REVIEW_WINDOW_MS ∧
    (OrderWorkflow.run oid pid env).finalState.current_step = "AWAITING_APPROVAL_TIMEOUT" ∧
    (OrderWorkflow.run oid pid env).result.status = "manual_review_timeout" := by
  refine ⟨rfl, by simp [wait_for_approval_or_cancel, minOptTime], ?_, ?_⟩ <;>
    rcases hr : env.recv with e | o <;> rcases hv : env.validate with e' | b <;>
      simp [OrderWorkflow.run, hr, hv, ha, hc]

/-- Witness for C5 at a concrete signal-free run with window start 0. -/
theorem approval_timeout_exactly_at_window_witness :
    wait_for_approval_or_cancel none none 0 MANUAL_REVIEW_WINDOW_MS
        = 0 + MANUAL_REVIEW_WINDOW_MS ∧
    ¬ wait_for_approval_or_cancel none none 0 MANUAL_REVIEW_WINDOW_MS
        < 0 + MANUAL_REVIEW_WINDOW_MS ∧
    (OrderWorkflow.run "o1" "p1" envNoSignals).finalState.current_step
        = "AWAITING_APPROVAL_TIMEOUT" ∧
    (OrderWorkflow.run "o1" "p1" envNoSignals).result.status = "manual_review_timeout" :=
  approval_timeout_exactly_at_window 0 "o1" "p1" envNoSignals rfl rfl

/-- C6: validation yielded `False` but the approval flag is set and the
cancellation flag is not: the run terminates `VALIDATION_FAILED` with result
status `"validation_failed"` and the charge activity is never invoked. -/
theorem invalid_after_approval_reports_validation_failed (oid pid : String)
    (env : OrderWorkflow.RunEnv) (ha : env.approved = true) (hc : env.cancelled = false)
    (hv : OrderWorkflow.validOf env = false) :
    (OrderWorkflow.run oid pid env).finalState.current_step = "VALIDATION_FAILED" ∧
    (OrderWorkflow.run oid pid env).result.status = "validation_failed" ∧
    (OrderWorkflow.run oid pid env).chargeInvoked = false ∧
    "CHARGING_PAYMENT" ∉ (OrderWorkflow.run oid pid env).suspensionSteps := by
  rcases hr : env.recv with e | o <;> rcases hvv : env.validate with e' | b <;>
    simp [OrderWorkflow.validOf, hvv] at hv <;>
      simp [OrderWorkflow.run, hr, hvv, ha, hc, hv]

/-- Witness for C6 at a concrete invalid-but-approved run. -/
theorem invalid_after_approval_reports_validation_failed_witness :
    (OrderWorkflow.run "o1" "p1" envInvalidApproved).finalState.current_step
        = "VALIDATION_FAILED" ∧
    (OrderWorkflow.run "o1" "p1" envInvalidApproved).result.status = "validation_failed" ∧
    (OrderWorkflow.run "o1" "p1" envInvalidApproved).chargeInvoked = false ∧
    "CHARGING_PAYMENT" ∉ (OrderWorkflow.run "o1" "p1" envInvalidApproved).suspensionSteps :=
  invalid_after_approval_reports_validation_failed "o1" "p1" envInvalidApproved rfl rfl rfl

/-- C7: a faulted receive invocation records its error and substitutes the
empty default order payload, and the run still reaches validation and the
approval gate; a faulted validate invocation records its error and is treated
as `valid = False`, and the run still reaches the approval gate — neither
fault terminates the saga at its own step. -/
theorem receive_validate_faults_continue (oid pid : String) (env : OrderWorkflow.RunEnv) :
    (∀ e, env.recv = .error e →
      (OrderWorkflow.run oid pid env).orderUsed = defaultOrder oid ∧
      (OrderWorkflow.run oid pid env).errAfterReceive = some (receiveErrMsg e) ∧
      "VALIDATING_ORDER" ∈ (OrderWorkflow.run oid pid env).suspensionSteps ∧
      "WAITING_FOR_APPROVAL" ∈ (OrderWorkflow.run oid pid env).suspensionSteps ∧
      (OrderWorkflow.run oid pid env).finalState.current_step ≠ "RECEIVING_ORDER") ∧
    (∀ e, env.validate = .error e →
      (OrderWorkflow.run oid pid env).validUsed = false ∧
      (OrderWorkflow.run oid pid env).errAfterValidate = some (validateErrMsg e) ∧
      "WAITING_FOR_APPROVAL" ∈ (OrderWorkflow.run oid pid env).suspensionSteps ∧
      (OrderWorkflow.run oid pid env).finalState.current_step ≠ "VALIDATING_ORDER") := by
  constructor
  · intro e he
    rcases hv : env.validate with e₂ | b <;> (try cases b) <;>
      cases hca : env.cancelled <;> cases hap : env.approved <;>
        rcases hch : env.charge with e₃ | pr <;> rcases hsp : env.spawn with e₄ | u <;>
          simp_all [OrderWorkflow.run]
  · intro e he
    rcases hr : env.recv with e₁ | o₁ <;>
      cases hca : env.cancelled <;> cases hap : env.approved <;>
        rcases hch : env.charge with e₃ | pr <;> rcases hsp : env.spawn with e₄ | u <;>
          simp_all [OrderWorkflow.run]

/-- Witness for C7 at a run whose receive and validate invocations both fault. -/
theorem receive_validate_faults_continue_witness :
    ((OrderWorkflow.run "o1" "p1" envFaultyEarly).orderUsed = defaultOrder "o1" ∧
      (OrderWorkflow.run "o1" "p1" envFaultyEarly).errAfterReceive
          = some (receiveErrMsg "boom") ∧
      "VALIDATING_ORDER" ∈ (OrderWorkflow.run "o1" "p1" envFaultyEarly).suspensionSteps ∧
      "WAITING_FOR_APPROVAL" ∈ (OrderWorkflow.run "o1" "p1" envFaultyEarly).suspensionSteps ∧
      (OrderWorkflow.run "o1" "p1" envFaultyEarly).finalState.current_step
          ≠ "RECEIVING_ORDER") ∧
    ((OrderWorkflow.run "o1" "p1" envFaultyEarly).validUsed = false ∧
      (OrderWorkflow.run "o1" "p1" envFaultyEarly).errAfterValidate
          = some (validateErrMsg "db timed out") ∧
      "WAITING_FOR_APPROVAL" ∈ (OrderWorkflow.run "o1" "p1" envFaultyEarly).suspensionSteps ∧
      (OrderWorkflow.run "o1" "p1" envFaultyEarly).finalState.current_step
          ≠ "VALIDATING_ORDER") :=
  ⟨(receive_validate_faults_continue "o1" "p1" envFaultyEarly).1 "boom" rfl,
   (receive_validate_faults_continue "o1" "p1" envFaultyEarly).2 "db timed out" rfl⟩

/-- C10: whenever a run terminates with `current_step = COMPLETED`, the
`status()` query reports `last_error = None` — the completion branch clears
any error recorded by an earlier step. -/
theorem completed_resets_last_error (oid pid : String) (env : OrderWorkflow.RunEnv)
    (h : (OrderWorkflow.run oid pid env).finalState.current_step = "COMPLETED") :
    (OrderWorkflow.status (OrderWorkflow.run oid pid env).finalState).last_error = none := by
  rcases hr : env.recv with e₁ | o₁ <;> rcases hv : env.validate with e₂ | b <;>
    (try cases b) <;> cases hca : env.cancelled <;> cases hap : env.approved <;>
      rcases hch : env.charge with e₃ | pr <;> rcases hsp : env.spawn with e₄ | u <;>
        simp_all [OrderWorkflow.run, OrderWorkflow.status]

/-- Witness for C10: a run whose receive step recorded an error still reports
`last_error = None` once `COMPLETED`. -/
theorem completed_resets_last_error_witness :
    (OrderWorkflow.run "o1" "p1" envRecvFaultCompleted).errAfterReceive
        = some "Receive error: boom" ∧
    (OrderWorkflow.status (OrderWorkflow.run "o1" "p1" envRecvFaultCompleted).finalState).last_error
        = none :=
  ⟨by decide, completed_resets_last_error "o1" "p1" envRecvFaultCompleted (by decide)⟩

/-- C1 fails on the code: at `envDeclined` the charge activity completes with
the structured business failure `{"status": "failed"}`, yet the run spawns
shipping and terminates `COMPLETED` (the failed payment result is embedded in
the `"success"` return), not `CHARGE_FAILED`. -/
theorem charge_declined_still_completes_cx :
    (OrderWorkflow.run "o1" "p1" envDeclined).result.payment
        = some (ChargeResult.failed (some "p1") "gateway declined") ∧
    (OrderWorkflow.run "o1" "p1" envDeclined).finalState.current_step = "COMPLETED" ∧
    (OrderWorkflow.run "o1" "p1" envDeclined).spawnAttempted = true ∧
    (OrderWorkflow.run "o1" "p1" envDeclined).finalState.current_step ≠ "CHARGE_FAILED" := by
  decide

/-- C1 amended: a run that reaches the charge step and receives a structured
charge result of status `"failed"` does not terminate `CHARGE_FAILED`: it
proceeds to spawn shipping and, when the spawn succeeds, terminates
`COMPLETED` with the failed payment result embedded in its `"success"`
return; `CHARGE_FAILED` arises exactly when the charge invocation faults. -/
theorem charge_business_failure_ignored (oid pid : String) (env : OrderWorkflow.RunEnv)
    (pr : ChargeResult) (hc : env.cancelled = false) (ha : env.approved = true)
    (hv : OrderWorkflow.validOf env = true) (hch : env.charge = .ok pr)
    (hst : pr.status = "failed") :
    (OrderWorkflow.run oid pid env).chargeInvoked = true ∧
    (OrderWorkflow.run oid pid env).spawnAttempted = true ∧
    (OrderWorkflow.run oid pid env).finalState.current_step ≠ "CHARGE_FAILED" ∧
    (∀ u : Unit, env.spawn = .ok u →
      (OrderWorkflow.run oid pid env).finalState.current_step = "COMPLETED" ∧
      (OrderWorkflow.run oid pid env).result.status = "success" ∧
      (OrderWorkflow.run oid pid env).result.payment = some pr) ∧
    (∀ env' : OrderWorkflow.RunEnv,
      (OrderWorkflow.run oid pid env').finalState.current_step = "CHARGE_FAILED" →
      ∃ e, env'.charge = .error e) := by
  refine ⟨?_, ?_, ?_, ?_, ?_⟩
  case _ | _ | _ =>
    rcases hr : env.recv with e₁ | o₁ <;> rcases hvv : env.validate with e₂ | b <;>
      simp [OrderWorkflow.validOf, hvv] at hv <;>
        rcases hsp : env.spawn with e₄ | u <;>
          simp_all [OrderWorkflow.run]
  case _ =>
    intro u hu
    rcases hr : env.recv with e₁ | o₁ <;> rcases hvv : env.validate with e₂ | b <;>
      simp [OrderWorkflow.validOf, hvv] at hv <;>
        simp_all [OrderWorkflow.run]
  case _ =>
    intro env' h
    rcases hch' : env'.charge with e | pr'
    · exact ⟨e, rfl⟩
    · rcases hr : env'.recv with e₁ | o₁ <;> rcases hvv : env'.validate with e₂ | b <;>
        (try cases b) <;> cases hca : env'.cancelled <;> cases hap : env'.approved <;>
          rcases hsp : env'.spawn with e₄ | u <;>
            simp_all [OrderWorkflow.run]

/-- Witness for the amended C1 at `envDeclined`. -/
theorem charge_business_failure_ignored_witness :
    (OrderWorkflow.run "o1" "p1" envDeclined).chargeInvoked = true ∧
    (OrderWorkflow.run "o1" "p1" envDeclined).spawnAttempted = true ∧
    (OrderWorkflow.run "o1" "p1" envDeclined).finalState.current_step ≠ "CHARGE_FAILED" ∧
    (∀ u : Unit, envDeclined.spawn = .ok u →
      (OrderWorkflow.run "o1" "p1" envDeclined).finalState.current_step = "COMPLETED" ∧
      (OrderWorkflow.run "o1" "p1" envDeclined).result.status = "success" ∧
      (OrderWorkflow.run "o1" "p1" envDeclined).result.payment
          = some (ChargeResult.failed (some "p1") "gateway declined")) ∧
    (∀ env' : OrderWorkflow.RunEnv,
      (OrderWorkflow.run "o1" "p1" env').finalState.current_step = "CHARGE_FAILED" →
      ∃ e, env'.charge = .error e) :=
  charge_business_failure_ignored "o1" "p1" envDeclined
    (ChargeResult.failed (some "p1") "gateway declined") rfl rfl rfl rfl rfl

/-- C2: a first charge for `(order, p)` on a ledger with no row for `p`
(all stores and the gateway succeeding, amount `a`) leaves the row `CHARGED`
with amount `a`; a second invocation for the same `(order, p)` — with any
gateway behaviour and any fault behaviour of the stores past the ledger
reservation and the idempotency read — returns `already_charged` carrying the
cached amount, performs zero gateway invocations, and leaves the `payments`
table unchanged. -/
theorem charge_idempotent_second_invocation (db0 : DBState) (oid pid : String) (a : Rat)
    (beh2 : ChargeDBFaults) (gw2 : Except String Rat)
    (hpid : pid ≠ "") (hoid : oid ≠ "") (h0 : db0.payments pid = none)
    (h2i : beh2.init = none) (h2r : beh2.readRow = none) :
    (charge_payment_activity (payloadFor oid pid) ChargeDBFaults.ok (.ok a) db0).1
        = .ok (.charged a) ∧
    (charge_payment_activity (payloadFor oid pid) ChargeDBFaults.ok (.ok a) db0).2.1.payments pid
        = some ⟨oid, "CHARGED", a⟩ ∧
    (charge_payment_activity (payloadFor oid pid) beh2 gw2
        (charge_payment_activity (payloadFor oid pid) ChargeDBFaults.ok (.ok a) db0).2.1).1
        = .ok (.alreadyCharged a) ∧
    (charge_payment_activity (payloadFor oid pid) beh2 gw2
        (charge_payment_activity (payloadFor oid pid) ChargeDBFaults.ok (.ok a) db0).2.1).2.2
        = 0 ∧
    (charge_payment_activity (payloadFor oid pid) beh2 gw2
        (charge_payment_activity (payloadFor oid pid) ChargeDBFaults.ok (.ok a) db0).2.1).2.1.payments
        = (charge_payment_activity (payloadFor oid pid) ChargeDBFaults.ok (.ok a) db0).2.1.payments := by
  have h1 : charge_payment_activity (payloadFor oid pid) ChargeDBFaults.ok (.ok a) db0 =
      (.ok (.charged a),
        update_order_status oid "PAID" (insert_event oid "PAYMENT_CHARGED"
          (update_payment_charged pid a (insert_payment_init pid oid db0))), 1) := by
    simp [charge_payment_activity, payloadFor, pyFalsyStr, hpid, hoid, ChargeDBFaults.ok,
          ensure_payment_idempotent, insert_payment_init, h0, charge_gateway_path]
  have hrow : (charge_payment_activity (payloadFor oid pid) ChargeDBFaults.ok
      (.ok a) db0).2.1.payments pid = some ⟨oid, "CHARGED", a⟩ := by
    rw [h1]
    simp [update_order_status, upsert_order, insert_event, update_payment_charged,
          insert_payment_init, h0]
  have hsecond : ∀ db1 : DBState, db1.payments pid = some ⟨oid, "CHARGED", a⟩ →
      (charge_payment_activity (payloadFor oid pid) beh2 gw2 db1).1
          = .ok (.alreadyCharged a) ∧
      (charge_payment_activity (payloadFor oid pid) beh2 gw2 db1).2.2 = 0 ∧
      (charge_payment_activity (payloadFor oid pid) beh2 gw2 db1).2.1.payments
          = db1.payments := by
    intro db1 hr
    cases hev : beh2.eventAlreadyCharged <;>
      simp [charge_payment_activity, payloadFor, pyFalsyStr, hpid, hoid, h2i, h2r,
            insert_payment_init, hr, ensure_payment_idempotent, insert_event, hev]
  exact ⟨by rw [h1], hrow, (hsecond _ hrow).1, (hsecond _ hrow).2.1, (hsecond _ hrow).2.2⟩

/-- Witness for C2 starting from the empty database, amount 42, with the
second invocation facing a failing gateway. -/
theorem charge_idempotent_second_invocation_witness :
    (charge_payment_activity (payloadFor "o1" "p1") ChargeDBFaults.ok
        (.ok 42) DBState.empty).1 = .ok (.charged 42) ∧
    (charge_payment_activity (payloadFor "o1" "p1") ChargeDBFaults.ok
        (.ok 42) DBState.empty).2.1.payments "p1" = some ⟨"o1", "CHARGED", 42⟩ ∧
    (charge_payment_activity (payloadFor "o1" "p1") ChargeDBFaults.ok (.error "gateway down")
        (charge_payment_activity (payloadFor "o1" "p1") ChargeDBFaults.ok
          (.ok 42) DBState.empty).2.1).1 = .ok (.alreadyCharged 42) ∧
    (charge_payment_activity (payloadFor "o1" "p1") ChargeDBFaults.ok (.error "gateway down")
        (charge_payment_activity (payloadFor "o1" "p1") ChargeDBFaults.ok
          (.ok 42) DBState.empty).2.1).2.2 = 0 ∧
    (charge_payment_activity (payloadFor "o1" "p1") ChargeDBFaults.ok (.error "gateway down")
        (charge_payment_activity (payloadFor "o1" "p1") ChargeDBFaults.ok
          (.ok 42) DBState.empty).2.1).2.1.payments
        = (charge_payment_activity (payloadFor "o1" "p1") ChargeDBFaults.ok
            (.ok 42) DBState.empty).2.1.payments :=
  charge_idempotent_second_invocation DBState.empty "o1" "p1" 42 ChargeDBFaults.ok
    (.error "gateway down") (by decide) (by decide) rfl rfl rfl

/-- C8: a payload whose `payment_id` or `order_id` is absent or empty is
rejected immediately (no gateway invocation): the activity returns the
structured `failed` result, appends exactly one `PAYMENT_FAILED` audit event,
and leaves the `payments` and `orders` tables untouched. -/
theorem charge_missing_identifiers_rejected (payload : Option ChargePayload)
    (beh : ChargeDBFaults) (gw : Except String Rat) (db : DBState)
    (hmiss : (pyFalsyStr (payload.getD ⟨none, none⟩).payment_id
        || pyFalsyStr ((payload.getD ⟨none, none⟩).order.getD Order.empty).order_id) = true)
    (hev : beh.eventMissing = none) :
    (charge_payment_activity payload beh gw db).1 =
      .ok (.failed (payload.getD ⟨none, none⟩).payment_id
        (missingIdsMsg ((payload.getD ⟨none, none⟩).order.getD Order.empty).order_id
          (payload.getD ⟨none, none⟩).payment_id)) ∧
    (charge_payment_activity payload beh gw db).2.1.payments = db.payments ∧
    (charge_payment_activity payload beh gw db).2.1.orders = db.orders ∧
    (charge_payment_activity payload beh gw db).2.1.events =
      db.events ++ [⟨pyOrStr ((payload.getD ⟨none, none⟩).order.getD Order.empty).order_id
        "unknown", "PAYMENT_FAILED"⟩] ∧
    (charge_payment_activity payload beh gw db).2.2 = 0 := by
  simp [charge_payment_activity, hmiss, hev, insert_event]

/-- Witness for C8 at a payload with no `order_id`. -/
theorem charge_missing_identifiers_rejected_witness :
    (charge_payment_activity (some ⟨some ⟨none, []⟩, some "p1"⟩) ChargeDBFaults.ok
        (.ok 1) DBState.empty).1 =
      .ok (.failed (some "p1") (missingIdsMsg none (some "p1"))) ∧
    (charge_payment_activity (some ⟨some ⟨none, []⟩, some "p1"⟩) ChargeDBFaults.ok
        (.ok 1) DBState.empty).2.1.payments = DBState.empty.payments ∧
    (charge_payment_activity (some ⟨some ⟨none, []⟩, some "p1"⟩) ChargeDBFaults.ok
        (.ok 1) DBState.empty).2.1.orders = DBState.empty.orders ∧
    (charge_payment_activity (some ⟨some ⟨none, []⟩, some "p1"⟩) ChargeDBFaults.ok
        (.ok 1) DBState.empty).2.1.events =
      DBState.empty.events ++ [⟨pyOrStr none "unknown", "PAYMENT_FAILED"⟩] ∧
    (charge_payment_activity (some ⟨some ⟨none, []⟩, some "p1"⟩) ChargeDBFaults.ok
        (.ok 1) DBState.empty).2.2 = 0 :=
  charge_missing_identifiers_rejected (some ⟨some ⟨none, []⟩, some "p1"⟩) ChargeDBFaults.ok
    (.ok 1) DBState.empty (by decide) rfl

/-- C9 fails on the code: with valid identifiers, a fault in the unguarded
ledger reservation (`insert_payment_init`) propagates out of
`charge_payment_activity` as a raised fault instead of a structured result. -/
theorem charge_init_write_fault_raises_cx :
    (charge_payment_activity (payloadFor "o1" "p1")
        { ChargeDBFaults.ok with init := some "connection refused" }
        (.ok 1) DBState.empty).1 = .error "connection refused" := by
  rfl

/-- C9 amended: `charge_payment_activity` returns a structured result
(status `charged`, `already_charged` or `failed`) and never raises, provided
the ledger reservation (`insert_payment_init`), the idempotency read and — in
the missing-identifier path — the audit event insert succeed; faults of the
gateway call and of every ledger or audit write in the charge path are
converted into a structured result. -/
theorem charge_returns_structured_result (payload : Option ChargePayload)
    (beh : ChargeDBFaults) (gw : Except String Rat) (db : DBState)
    (h1 : beh.init = none) (h2 : beh.readRow = none) (h3 : beh.eventMissing = none) :
    ∃ r : ChargeResult, (charge_payment_activity payload beh gw db).1 = .ok r := by
  simp only [charge_payment_activity, charge_gateway_path, charge_failure_handler, h1, h2, h3]
  repeat' split
  all_goals exact ⟨_, rfl⟩

/-- Witness for the amended C9 at a concrete fault-free invocation. -/
theorem charge_returns_structured_result_witness :
    ∃ r : ChargeResult,
      (charge_payment_activity (payloadFor "o1" "p1") ChargeDBFaults.ok
        (.ok 1) DBState.empty).1 = .ok r :=
  charge_returns_structured_result (payloadFor "o1" "p1") ChargeDBFaults.ok
    (.ok 1) DBState.empty rfl rfl rfl

end Saga
